import Mathlib

/-!
Verification of the natural-language specification of
`alex000kim/openai-function-calling-demo-sqlite` against a shallow Lean
embedding of `src/FunctionCalling.ipynb`.

The notebook defines two tool functions over a SQLite database
(`get_schema`, `read_data`), two orchestrators driving an OpenAI
chat-completion model with function calling (`get_result_v1`,
`get_result_v2`), and an evaluation loop over hand-curated
(Question, Answer-SQL) cases.

Modelling decisions, each tied to the source:
* The SQLite database is abstracted as a `DB`: its current schema plus a
  query-execution function that either returns a dataframe or raises
  (`pd.read_sql_query` can raise on malformed SQL).
* Python exceptions are `Except Err`; a Python function that can implicitly
  return `None` returns an `Option`.
* The remote model is an oracle `List Message → ModelResponse`: the response
  is an arbitrary function of the message transcript sent to
  `openai.chat.completions.create` (tool descriptors and temperature are
  fixed constants in the source and carry no information).
* `sqlite3.connect` / `conn.close()` calls are recorded as a trace of
  `ConnEvent`s, in the order the source performs them.
* Orchestrators additionally record the transcript of each API call made and
  the list of tool calls actually dispatched to a tool function; these are
  exactly the observable actions of the source code.
-/

deriving instance DecidableEq for Except

namespace FunctionCalling

abbrev Err := String

/-- A schema as returned by `get_schema`: a mapping (ordered, as the Python
dict preserves insertion order) from table name to its column names. -/
abbrev Schema := List (String × List String)

/-- A pandas dataframe as produced by `pd.read_sql_query`: column labels and
a rectangular grid of cell values (cells modelled as `Int`). -/
structure DataFrame where
  columns : List String
  grid : List (List Int)
deriving DecidableEq, Repr

/-- A connection-lifecycle event: `sqlite3.connect(...)` or `conn.close()`. -/
inductive ConnEvent
  | connect
  | close
deriving DecidableEq, Repr

/-- The SQLite database, abstracted: its current schema and the semantics of
executing a SQL string against it (which may raise). -/
structure DB where
  schema : Schema
  run_query : String → Except Err DataFrame

/-- Embeds `get_schema` (notebook cell 3): connects, lists the tables and
their columns via `PRAGMA table_info`, and returns the schema dict.  The
source never calls `conn.close()`, so the trace holds a lone `connect`. -/
def get_schema (db : DB) : Schema × List ConnEvent :=
  (db.schema, [ConnEvent.connect])

/-- Embeds `read_data` (notebook cell 4): connects, runs
`pd.read_sql_query(query, conn)`, closes, returns the dataframe.  When the
query raises, the exception propagates before `conn.close()` is reached. -/
def read_data (q : String) (db : DB) : Except Err DataFrame × List ConnEvent :=
  match db.run_query q with
  | .error e => (.error e, [ConnEvent.connect])
  | .ok df => (.ok df, [ConnEvent.connect, ConnEvent.close])

/-- Net number of connections a trace leaves open. -/
def netOpen (t : List ConnEvent) : Int :=
  ((t.filter (fun e => e = ConnEvent.connect)).length : Int)
    - ((t.filter (fun e => e = ConnEvent.close)).length : Int)

/-- One tool-invocation request inside an assistant message
(`tool_call.id`, `tool_call.function.name`, `tool_call.function.arguments`).
The arguments blob is modelled post-parse: `some q` stands for the JSON text
`{"query": q}`, `none` for a blob on which
`json.loads(...)[\x27query\x27]` raises (malformed JSON or missing key). -/
structure ToolCall where
  id : String
  name : String
  arguments : Option String
deriving DecidableEq, Repr

/-- An assistant message from the chat-completion API; `tool_calls` is
`none` when the model made no tool-invocation request at all (the API field
is `null`). -/
structure ModelResponse where
  tool_calls : Option (List ToolCall)
deriving DecidableEq, Repr

/-- A message of the conversation transcript, tagged by role as in the
source: system, user, the appended assistant response, or a tool-result
message `(tool_call_id, name, content)`. -/
inductive Message
  | system (content : String)
  | user (content : String)
  | assistant (response : ModelResponse)
  | tool (tool_call_id : String) (fname : String) (content : String)
deriving DecidableEq, Repr

/-- The remote model as a decision oracle: the response is a function of the
transcript sent to `openai.chat.completions.create`. -/
abbrev Oracle := List Message → ModelResponse

/-- Embeds `response_message.tool_calls[0]`: raises `TypeError` when
`tool_calls` is `None`, `IndexError` when it is an empty list. -/
def first_tool_call (r : ModelResponse) : Except Err ToolCall :=
  match r.tool_calls with
  | none => .error "TypeError: NoneType object is not subscriptable"
  | some [] => .error "IndexError: list index out of range"
  | some (tc :: _) => .ok tc

/-- Python `str` of a string: wrapped in single quotes (\x27). -/
def pyStr (s : String) : String := "\x27" ++ s ++ "\x27"

/-- Python `str` of a list of strings. -/
def pyListStr (xs : List String) : String :=
  "[" ++ String.intercalate ", " (xs.map pyStr) ++ "]"

/-- Python `str` of the schema dict returned by `get_schema`. -/
def schemaStr (s : Schema) : String :=
  "\x7b" ++
    String.intercalate ", "
      (s.map (fun p => pyStr p.1 ++ ": " ++ pyListStr p.2)) ++
  "\x7d"

/-- Embeds `SYSTEM_PROMPT_v1` (cell 8): an f-string interpolating
`str(get_schema())`.  In the notebook this expression is evaluated once, at
module level, against the database state at that moment; the parameter `db`
is that definition-time state. -/
def SYSTEM_PROMPT_v1 (db : DB) : String :=
  "\n            The user will ask a question about the database with the following schema:\n            ###\n            "
    ++ schemaStr (get_schema db).1 ++
  "\n            ###\n            Provide a SQL query answering the question.  \n            Avoid ambiguous column names.\n            "

/-- Embeds `SYSTEM_PROMPT_v2` (cell 10): a static string, no schema. -/
def SYSTEM_PROMPT_v2 : String :=
  "\n        The user will ask a question about the database. \n        First, get the schema of the database. \n        Then, provide a SQL query answering the question.       \n        Avoid ambiguous column names.\n        "

/-- The observable outcome of one orchestrator run: the Python return value
(`.error` = an uncaught exception, `.ok none` = the implicit `return None`
fall-through, `.ok (some (sql, df))` = the explicit return), the transcript
sent at each chat-completion API call, and the tool calls that were actually
dispatched to a tool function. -/
structure RunResult where
  result : Except Err (Option (String × DataFrame))
  apiCalls : List (List Message)
  dispatched : List ToolCall
deriving DecidableEq, Repr

/-- Embeds `get_result_v1` (cell 8): one API call advertising only
`read_data`; takes `tool_calls[0]`; if it names `read_data`, parses the
`query` argument, executes it, and returns `(sql_query, df)`; any other
name falls through to an implicit `return None`. -/
def get_result_v1 (openai : Oracle) (db : DB) (user_question : String)
    (system_prompt : String) : RunResult :=
  let messages0 : List Message :=
    [Message.system system_prompt, Message.user user_question]
  let response := openai messages0
  match first_tool_call response with
  | .error e => ⟨.error e, [messages0], []⟩
  | .ok tc =>
    if tc.name = "read_data" then
      match tc.arguments with
      | none =>
          ⟨.error "json.loads/KeyError on tool arguments", [messages0], []⟩
      | some sql_query =>
        match (read_data sql_query db).1 with
        | .error e => ⟨.error e, [messages0], [tc]⟩
        | .ok df => ⟨.ok (some (sql_query, df)), [messages0], [tc]⟩
    else ⟨.ok none, [messages0], []⟩

/-- The notebook-level calling convention of `get_result_v1`: the default
`system_prompt=SYSTEM_PROMPT_v1` was baked from the database state
`db_def` current when cell 8 ran, while the call executes against the
database state `db` current at call time. -/
def get_result_v1_call (openai : Oracle) (db_def db : DB) (q : String) :
    RunResult :=
  get_result_v1 openai db q (SYSTEM_PROMPT_v1 db_def)

/-- Embeds `get_result_v2` (cell 10): first API call advertising
`get_schema` and `read_data`; takes `tool_calls[0]`.  Only when it names
`get_schema` does the source proceed: it invokes `get_schema`, appends the
tool-result message, makes the second API call, takes its `tool_calls[0]`,
and only when that names `read_data` executes the query and returns.
Every other path falls through to an implicit `return None` — in
particular a first tool call naming `read_data` is NOT executed. -/
def get_result_v2 (openai : Oracle) (db : DB) (user_question : String)
    (system_prompt : String) : RunResult :=
  let messages0 : List Message :=
    [Message.system system_prompt, Message.user user_question]
  let response := openai messages0
  let messages1 := messages0 ++ [Message.assistant response]
  match first_tool_call response with
  | .error e => ⟨.error e, [messages0], []⟩
  | .ok tc =>
    if tc.name = "get_schema" then
      let schema := (get_schema db).1
      let messages2 := messages1 ++ [Message.tool tc.id "get_schema" (schemaStr schema)]
      let second_response := openai messages2
      match first_tool_call second_response with
      | .error e => ⟨.error e, [messages0, messages2], [tc]⟩
      | .ok tc2 =>
        if tc2.name = "read_data" then
          match tc2.arguments with
          | none =>
              ⟨.error "json.loads/KeyError on tool arguments",
               [messages0, messages2], [tc]⟩
          | some sql_query =>
            match (read_data sql_query db).1 with
            | .error e => ⟨.error e, [messages0, messages2], [tc, tc2]⟩
            | .ok df =>
                ⟨.ok (some (sql_query, df)), [messages0, messages2], [tc, tc2]⟩
        else ⟨.ok none, [messages0, messages2], [tc]⟩
    else ⟨.ok none, [messages0], []⟩

/-- Embeds `(df_true.to_numpy() == df_llm.to_numpy()).all()` (cells 15, 19,
22, 23 and the evaluation loops): `to_numpy()` keeps only the value grid,
dropping column labels, and the elementwise comparison followed by `.all()`
is, for grids of identical shape, exactly grid equality.  Grids of
non-identical shape are modelled as a raised comparison failure (numpy
broadcasting of mismatched shapes is not modelled; no claim turns on it). -/
def np_eq_all (d1 d2 : DataFrame) : Except Err Bool :=
  if d1.grid.map List.length = d2.grid.map List.length then
    .ok (decide (d1.grid = d2.grid))
  else
    .error "numpy elementwise comparison failed"

/-- One row of `eval_questions.csv`: its `Question` and `Answer` columns. -/
structure EvalCase where
  question : String
  answer : String
deriving DecidableEq, Repr

/-- The orchestrator under test as seen by the evaluation loop: question in,
Python return value out (exception, implicit `None`, or `(sql, df)`). -/
abbrev Orchestrator := String → Except Err (Option (String × DataFrame))

/-- The body of the `try:` block of the evaluation loops (cells 29, 31),
returning whether `n_correct` is incremented for this case.

`_, df_llm = get_result(question)` raises when the orchestrator raised or
returned `None` (tuple-unpacking of `None` is a `TypeError`), caught by the
bare `except` — no increment.  Otherwise the comparison expression
`(df_true.to_numpy() == df_llm.to_numpy()).all()` is evaluated and its
value DISCARDED (it is a bare expression statement), so `n_correct += 1`
runs whenever the comparison raises no exception, regardless of the
comparison outcome. -/
def eval_case_body (res : Except Err (Option (String × DataFrame)))
    (df_true : DataFrame) : Bool :=
  match res with
  | .error _ => false
  | .ok none => false
  | .ok (some (_, df_llm)) =>
    match np_eq_all df_true df_llm with
    | .error _ => false
    | .ok _ => true

/-- Embeds the per-case loop of cells 29 and 31.  For each row:
`_, query = row[\x27Question\x27], row[\x27Answer\x27]` (the question column
is bound to `_` and discarded), then `df_true = read_data(query)` runs
OUTSIDE the `try:` block — an exception there propagates and aborts the
whole batch.  Inside the `try:` the orchestrator is called on the fixed
notebook-level variable `question`, never on the row's own question. -/
def eval_loop (orc : Orchestrator) (db : DB) (question : String) :
    List EvalCase → Nat → Except Err Nat
  | [], n_correct => .ok n_correct
  | c :: rest, n_correct =>
    match (read_data c.answer db).1 with
    | .error e => .error e
    | .ok df_true =>
      eval_loop orc db question rest
        (n_correct + (if eval_case_body (orc question) df_true then 1 else 0))

/-! ### Concrete fixtures used by counterexamples and witnesses -/

/-- A small database: a fixed schema, every query succeeds with a 1×1 grid. -/
def dbA : DB :=
  ⟨[("Orders", ["OrderID", "ShipCountry"])], fun _ => .ok ⟨["c"], [[1]]⟩⟩

/-- The database `dbA` after a schema change (one more table). -/
def dbB : DB :=
  ⟨[("Orders", ["OrderID", "ShipCountry"]), ("Audit", ["RowID"])],
   fun _ => .ok ⟨["c"], [[1]]⟩⟩

/-- A model that never requests a tool invocation (`tool_calls` is `None`). -/
def oracleNone : Oracle := fun _ => ⟨none⟩

/-- A model whose first response requests `read_data` directly with a valid
SQL argument (the schema-skipping behaviour). -/
def oracleReadData : Oracle :=
  fun _ => ⟨some [⟨"call_1", "read_data", some "SELECT 1"⟩]⟩

/-- A model that always requests `get_schema` first and `read_data` on every
later turn (distinguished by transcript length). -/
def oracleTwoStep : Oracle := fun ms =>
  if ms.length ≤ 2 then ⟨some [⟨"call_1", "get_schema", none⟩]⟩
  else ⟨some [⟨"call_2", "read_data", some "SELECT 1"⟩]⟩

/-- A model that requests a tool that was never advertised. -/
def oracleRogue : Oracle :=
  fun _ => ⟨some [⟨"call_1", "get_weather", some "Lisbon"⟩,
                  ⟨"call_2", "read_data", some "SELECT 1"⟩]⟩

/-! ### Helper lemmas -/

/-- `get_result_v1` always makes exactly one API call, whose transcript is
the system prompt followed by the user question. -/
theorem get_result_v1_apiCalls_eq (openai : Oracle) (db : DB) (q sp : String) :
    (get_result_v1 openai db q sp).apiCalls
      = [[Message.system sp, Message.user q]] := by
  unfold get_result_v1
  cases h : first_tool_call (openai [Message.system sp, Message.user q]) with
  | error e => simp [h]
  | ok tc =>
    by_cases hn : tc.name = "read_data"
    · cases ha : tc.arguments with
      | none => simp [h, hn, ha]
      | some s => cases hq : (read_data s db).1 <;> simp [h, hn, ha, hq]
    · simp [h, hn]

/-! ### Claim C10 -/

/-- C10: the evaluation comparison converts both dataframes to value-only
grids (`to_numpy`) before testing equality, so two dataframes with the same
cell values in the same row and column order but different column labels
compare equal, whatever the labels are. -/
theorem c10_comparison_ignores_column_labels (cols1 cols2 : List String)
    (grid : List (List Int)) :
    np_eq_all ⟨cols1, grid⟩ ⟨cols2, grid⟩ = .ok true := by
  simp [np_eq_all]

/-! ### Claim C8 -/

/-- C8: when the model response of `get_result_v1` carries no tool
invocation at all (`tool_calls` is `None`), subscripting `tool_calls[0]`
raises, the exception propagates to the caller, and no (sql, result) pair
is produced. -/
theorem c8_v1_no_tool_call_fails (openai : Oracle) (db : DB) (q sp : String)
    (h : (openai [Message.system sp, Message.user q]).tool_calls = none) :
    (∃ e, (get_result_v1 openai db q sp).result = .error e)
      ∧ (get_result_v1 openai db q sp).dispatched = [] := by
  have hf : first_tool_call (openai [Message.system sp, Message.user q])
      = .error "TypeError: NoneType object is not subscriptable" := by
    simp [first_tool_call, h]
  refine ⟨⟨"TypeError: NoneType object is not subscriptable", ?_⟩, ?_⟩ <;>
    · unfold get_result_v1
      simp [hf]

/-- Witness for C8 at the concrete no-tool-call model `oracleNone`. -/
theorem c8_v1_no_tool_call_fails_witness :
    (oracleNone [Message.system "sp", Message.user "q"]).tool_calls = none
      ∧ ((∃ e, (get_result_v1 oracleNone dbA "q" "sp").result = .error e)
          ∧ (get_result_v1 oracleNone dbA "q" "sp").dispatched = []) :=
  ⟨rfl, c8_v1_no_tool_call_fails oracleNone dbA "q" "sp" rfl⟩

/-! ### Claim C7 -/

/-- C7 counterexample: `get_schema` opens a connection
(`sqlite3.connect`) and returns without ever calling `conn.close()`, so
after the call one connection opened by it remains open. -/
theorem c7_counterexample :
    (get_schema dbA).2 = [ConnEvent.connect]
      ∧ netOpen (get_schema dbA).2 = 1 := by
  exact ⟨rfl, by decide⟩

/-- C7 amended: `read_data` opens its own connection and closes it before
returning whenever query execution succeeds, while `get_schema` opens a
connection and never closes it. -/
theorem c7_amended (db : DB) (q : String) (df : DataFrame)
    (h : (read_data q db).1 = .ok df) :
    netOpen (read_data q db).2 = 0 ∧ netOpen (get_schema db).2 = 1 := by
  constructor
  · cases hq : db.run_query q with
    | error e => simp [read_data, hq] at h
    | ok df2 => simp [read_data, hq, netOpen]
  · simp [get_schema, netOpen]

/-- Witness for C7 amended: a successful `read_data` call on `dbA`. -/
theorem c7_amended_witness :
    (read_data "SELECT 1" dbA).1 = .ok ⟨["c"], [[1]]⟩
      ∧ (netOpen (read_data "SELECT 1" dbA).2 = 0
          ∧ netOpen (get_schema dbA).2 = 1) :=
  ⟨rfl, c7_amended dbA "SELECT 1" ⟨["c"], [[1]]⟩ rfl⟩

/-! ### Claim C1 -/

/-- C1 counterexample: the first model response requests `read_data` with a
valid SQL argument that the database would execute successfully, yet
`get_result_v2` returns `None`: no (sql, result) pair is produced and no
tool is dispatched.  The source guards the whole body with
`if function_name == "get_schema"` and has no early-terminal branch. -/
theorem c1_counterexample :
    first_tool_call
        (oracleReadData [Message.system SYSTEM_PROMPT_v2, Message.user "q"])
        = .ok ⟨"call_1", "read_data", some "SELECT 1"⟩
      ∧ dbA.run_query "SELECT 1" = .ok ⟨["c"], [[1]]⟩
      ∧ (get_result_v2 oracleReadData dbA "q" SYSTEM_PROMPT_v2).result
          = .ok none
      ∧ (get_result_v2 oracleReadData dbA "q" SYSTEM_PROMPT_v2).dispatched
          = [] :=
  ⟨rfl, rfl, rfl, rfl⟩

/-- C1 amended: when the first tool-invocation request of the first model
response names `read_data`, `get_result_v2` makes no second model call, but
it also executes nothing and returns `None` — the schema-skipping path
yields no (sql, result) pair. -/
theorem c1_amended (openai : Oracle) (db : DB) (q sp : String)
    (tc : ToolCall)
    (h : first_tool_call (openai [Message.system sp, Message.user q]) = .ok tc)
    (hn : tc.name = "read_data") :
    (get_result_v2 openai db q sp).result = .ok none
      ∧ (get_result_v2 openai db q sp).apiCalls
          = [[Message.system sp, Message.user q]]
      ∧ (get_result_v2 openai db q sp).dispatched = [] := by
  have hg : ¬ tc.name = "get_schema" := by rw [hn]; decide
  unfold get_result_v2
  simp [h, hg]

/-- Witness for C1 amended at the schema-skipping model `oracleReadData`. -/
theorem c1_amended_witness :
    first_tool_call
        (oracleReadData [Message.system "sp", Message.user "q"])
        = .ok ⟨"call_1", "read_data", some "SELECT 1"⟩
      ∧ ((get_result_v2 oracleReadData dbA "q" "sp").result = .ok none
          ∧ (get_result_v2 oracleReadData dbA "q" "sp").apiCalls
              = [[Message.system "sp", Message.user "q"]]
          ∧ (get_result_v2 oracleReadData dbA "q" "sp").dispatched = []) :=
  ⟨rfl, c1_amended oracleReadData dbA "q" "sp"
      ⟨"call_1", "read_data", some "SELECT 1"⟩ rfl rfl⟩

/-! ### Claim C5 -/

/-- C5 counterexample: `SYSTEM_PROMPT_v1` is an f-string evaluated once, at
definition time, against database state `dbA`; a `get_result_v1` call made
later, when the database state is `dbB` (one more table), still sends the
prompt baked from `dbA`, which differs from the prompt the call-time schema
would produce. -/
theorem c5_counterexample :
    (get_result_v1_call oracleNone dbA dbB "q").apiCalls
        = [[Message.system (SYSTEM_PROMPT_v1 dbA), Message.user "q"]]
      ∧ SYSTEM_PROMPT_v1 dbA ≠ SYSTEM_PROMPT_v1 dbB := by
  refine ⟨get_result_v1_apiCalls_eq oracleNone dbB "q" (SYSTEM_PROMPT_v1 dbA), ?_⟩
  decide

/-- C5 amended: `get_result_v2` does read the schema from the live database
during the run — the tool-result message of its second API call carries the
schema of the database at call time — but `get_result_v1`'s system
instruction embeds the schema captured once when `SYSTEM_PROMPT_v1` was
defined: a call against any later database state still presents the
definition-time schema. -/
theorem c5_amended (openai : Oracle) (db_def db : DB) (q : String)
    (tc : ToolCall)
    (h : first_tool_call
        (openai [Message.system SYSTEM_PROMPT_v2, Message.user q]) = .ok tc)
    (hn : tc.name = "get_schema") :
    (get_result_v1_call openai db_def db q).apiCalls
        = [[Message.system (SYSTEM_PROMPT_v1 db_def), Message.user q]]
      ∧ (get_result_v2 openai db q SYSTEM_PROMPT_v2).apiCalls
          = [[Message.system SYSTEM_PROMPT_v2, Message.user q],
             [Message.system SYSTEM_PROMPT_v2, Message.user q,
              Message.assistant
                (openai [Message.system SYSTEM_PROMPT_v2, Message.user q]),
              Message.tool tc.id "get_schema" (schemaStr db.schema)]] := by
  refine ⟨get_result_v1_apiCalls_eq openai db q (SYSTEM_PROMPT_v1 db_def), ?_⟩
  unfold get_result_v2
  simp only [h, hn, get_schema]
  cases h2 : first_tool_call
      (openai [Message.system SYSTEM_PROMPT_v2, Message.user q,
               Message.assistant
                 (openai [Message.system SYSTEM_PROMPT_v2, Message.user q]),
               Message.tool tc.id "get_schema" (schemaStr db.schema)]) with
  | error e => simp [h2]
  | ok tc2 =>
    by_cases hn2 : tc2.name = "read_data"
    · cases ha : tc2.arguments with
      | none => simp [h2, hn2, ha]
      | some s => cases hq : (read_data s db).1 <;> simp [h2, hn2, ha, hq]
    · simp [h2, hn2]

/-- Witness for C5 amended at the concrete two-step model `oracleTwoStep`. -/
theorem c5_amended_witness :
    first_tool_call
        (oracleTwoStep [Message.system SYSTEM_PROMPT_v2, Message.user "q"])
        = .ok ⟨"call_1", "get_schema", none⟩
      ∧ ((get_result_v1_call oracleTwoStep dbA dbB "q").apiCalls
          = [[Message.system (SYSTEM_PROMPT_v1 dbA), Message.user "q"]]
        ∧ (get_result_v2 oracleTwoStep dbB "q" SYSTEM_PROMPT_v2).apiCalls
          = [[Message.system SYSTEM_PROMPT_v2, Message.user "q"],
             [Message.system SYSTEM_PROMPT_v2, Message.user "q",
              Message.assistant
                (oracleTwoStep [Message.system SYSTEM_PROMPT_v2, Message.user "q"]),
              Message.tool "call_1" "get_schema" (schemaStr dbB.schema)]]) :=
  ⟨rfl, c5_amended oracleTwoStep dbA dbB "q"
      ⟨"call_1", "get_schema", none⟩ rfl rfl⟩

/-! ### Claim C6 -/

/-- C6: at every query-dispatch step — the single dispatch of
`get_result_v1`, the second dispatch of `get_result_v2`, and
`get_result_v2`'s first response when it requests neither `get_schema` nor
`read_data` — a first tool-invocation request naming anything other than
`read_data` ends the run with no (sql, result) pair, nothing further
dispatched, and no extra model call (no fallback, no retry); the Python
functions fall through to `return None`, which the caller's tuple
unpacking turns into a `TypeError`. -/
theorem c6_unexpected_tool_name_fails (openai : Oracle) (db : DB)
    (q sp : String) :
    (∀ tc, first_tool_call (openai [Message.system sp, Message.user q])
          = .ok tc →
        tc.name ≠ "read_data" →
        (get_result_v1 openai db q sp).result = .ok none
          ∧ (get_result_v1 openai db q sp).dispatched = [])
  ∧ (∀ tc, first_tool_call (openai [Message.system sp, Message.user q])
          = .ok tc →
        tc.name ≠ "get_schema" → tc.name ≠ "read_data" →
        (get_result_v2 openai db q sp).result = .ok none
          ∧ (get_result_v2 openai db q sp).dispatched = []
          ∧ (get_result_v2 openai db q sp).apiCalls
              = [[Message.system sp, Message.user q]])
  ∧ (∀ tc tc2, first_tool_call (openai [Message.system sp, Message.user q])
          = .ok tc →
        tc.name = "get_schema" →
        first_tool_call
            (openai [Message.system sp, Message.user q,
                     Message.assistant
                       (openai [Message.system sp, Message.user q]),
                     Message.tool tc.id "get_schema"
                       (schemaStr (get_schema db).1)]) = .ok tc2 →
        tc2.name ≠ "read_data" →
        (get_result_v2 openai db q sp).result = .ok none
          ∧ (get_result_v2 openai db q sp).dispatched = [tc]) := by
  refine ⟨?_, ?_, ?_⟩
  · intro tc h hn
    unfold get_result_v1
    simp [h, hn]
  · intro tc h hg hn
    unfold get_result_v2
    simp [h, hg]
  · intro tc tc2 h hg h2 hn2
    unfold get_result_v2
    simp only [h, hg, if_pos, get_schema] at h2 ⊢
    simp [h2, hn2]

/-- Witness for C6 at the concrete model `oracleRogue`, whose first tool
request names the unadvertised tool `get_weather` in both orchestrators. -/
theorem c6_unexpected_tool_name_fails_witness :
    first_tool_call (oracleRogue [Message.system "sp", Message.user "q"])
        = .ok ⟨"call_1", "get_weather", some "Lisbon"⟩
      ∧ ((get_result_v1 oracleRogue dbA "q" "sp").result = .ok none
          ∧ (get_result_v1 oracleRogue dbA "q" "sp").dispatched = [])
      ∧ ((get_result_v2 oracleRogue dbA "q" "sp").result = .ok none
          ∧ (get_result_v2 oracleRogue dbA "q" "sp").dispatched = []
          ∧ (get_result_v2 oracleRogue dbA "q" "sp").apiCalls
              = [[Message.system "sp", Message.user "q"]]) :=
  ⟨rfl,
   (c6_unexpected_tool_name_fails oracleRogue dbA "q" "sp").1
     ⟨"call_1", "get_weather", some "Lisbon"⟩ rfl (by decide),
   (c6_unexpected_tool_name_fails oracleRogue dbA "q" "sp").2.1
     ⟨"call_1", "get_weather", some "Lisbon"⟩ rfl (by decide) (by decide)⟩

/-! ### Claim C2 -/

/-- A database on which one specific SQL text raises and all others yield a
1×1 grid. -/
def dbErr : DB :=
  ⟨[("Orders", ["OrderID"])],
   fun q => if q = "BAD SQL" then .error "DatabaseError: syntax error"
            else .ok ⟨["c"], [[1]]⟩⟩

/-- An orchestrator under test that always succeeds with a fixed pair. -/
def orcOK : Orchestrator := fun _ => .ok (some ("SELECT 1", ⟨["c"], [[1]]⟩))

/-- C2 counterexample: a batch of two cases whose first case's reference SQL
raises.  Because `df_true = read_data(query)` runs outside the `try:`
block, the exception propagates: the batch aborts with the database error,
the second case is never processed, and no correct/total count is reported
— the case is not merely scored as incorrect. -/
theorem c2_counterexample :
    eval_loop orcOK dbErr "q" [⟨"q1", "BAD SQL"⟩, ⟨"q2", "SELECT 1"⟩] 0
      = .error "DatabaseError: syntax error" := by
  rfl

/-- C2 amended: a case whose reference SQL raises aborts the whole batch
(ground truth is computed outside the exception handler, so the error
propagates and the remaining cases are not processed); only exceptions
raised by the orchestration or comparison inside the `try:` are caught,
scoring that case as incorrect while the batch continues. -/
theorem c2_amended (orc : Orchestrator) (db : DB) (q : String)
    (c : EvalCase) (rest : List EvalCase) (n : Nat) (e : Err) :
    ((read_data c.answer db).1 = .error e →
        eval_loop orc db q (c :: rest) n = .error e)
  ∧ (∀ df_true, (read_data c.answer db).1 = .ok df_true →
        orc q = .error e →
        eval_loop orc db q (c :: rest) n = eval_loop orc db q rest n) := by
  constructor
  · intro h
    simp [eval_loop, h]
  · intro df_true h ho
    simp [eval_loop, h, eval_case_body, ho]

/-- An orchestrator under test that always raises. -/
def orcRaise : Orchestrator := fun _ => .error "openai.APIError"

/-- Witness for C2 amended: the aborting half at `dbErr`'s bad SQL, the
caught-and-continue half at an always-raising orchestrator. -/
theorem c2_amended_witness :
    ((read_data "BAD SQL" dbErr).1 = .error "DatabaseError: syntax error"
      ∧ eval_loop orcOK dbErr "q" [⟨"q1", "BAD SQL"⟩] 0
          = .error "DatabaseError: syntax error")
  ∧ ((read_data "SELECT 1" dbErr).1 = .ok ⟨["c"], [[1]]⟩
      ∧ orcRaise "q" = .error "openai.APIError"
      ∧ eval_loop orcRaise dbErr "q" [⟨"q1", "SELECT 1"⟩] 0
          = eval_loop orcRaise dbErr "q" [] 0) :=
  ⟨⟨rfl, (c2_amended orcOK dbErr "q" ⟨"q1", "BAD SQL"⟩ [] 0
        "DatabaseError: syntax error").1 rfl⟩,
   ⟨rfl, rfl, (c2_amended orcRaise dbErr "q" ⟨"q1", "SELECT 1"⟩ [] 0
        "openai.APIError").2 ⟨["c"], [[1]]⟩ rfl rfl⟩⟩

/-! ### Claim C3 -/

/-- Ground-truth dataframe of the C3 scenario. -/
def dfGT : DataFrame := ⟨["Revenue"], [[100]]⟩

/-- A model-produced dataframe with the same shape but a different cell. -/
def dfWrong : DataFrame := ⟨["Revenue"], [[999]]⟩

/-- A database whose query "GT" yields `dfGT`. -/
def dbGT : DB :=
  ⟨[("T", ["a"])],
   fun q => if q = "GT" then .ok dfGT else .error "DatabaseError"⟩

/-- An orchestrator under test that succeeds but returns a wrong grid. -/
def orcWrong : Orchestrator := fun _ => .ok (some ("SELECT 999", dfWrong))

/-- C3, behaviour of the code at the failing input: the ground-truth grid
`[[100]]` and the model grid `[[999]]` compare unequal, yet the evaluation
loop scores the case as correct (count 1 of 1) — the comparison
`(df_true.to_numpy() == df_llm.to_numpy()).all()` is computed as a bare
expression statement whose value is discarded, and `n_correct += 1` runs
whenever no exception was raised. -/
theorem c3_code_behaviour :
    np_eq_all dfGT dfWrong = .ok false
      ∧ eval_loop orcWrong dbGT "q" [⟨"q1", "GT"⟩] 0 = .ok 1 := by
  exact ⟨by decide, rfl⟩

/-! ### Claim C4 -/

/-- C4, behaviour of the code: the evaluation loop never reads a case's
`Question` field (`_, query = row[\x27Question\x27], row[\x27Answer\x27]`
discards it) and always invokes the orchestrator on the fixed
notebook-level `question`, so rewriting every case's question text leaves
the whole evaluation unchanged — different cases with different questions
do NOT lead to different orchestrator inputs. -/
theorem c4_code_behaviour (orc : Orchestrator) (db : DB) (q : String)
    (cs : List EvalCase) (n : Nat) :
    eval_loop orc db q (cs.map (fun c => ⟨"", c.answer⟩)) n
      = eval_loop orc db q cs n := by
  induction cs generalizing n with
  | nil => rfl
  | cons c rest ih =>
    simp only [List.map]
    cases h : (read_data c.answer db).1 with
    | error e => simp [eval_loop, h]
    | ok df_true => simp [eval_loop, h, ih]

/-! ### Claim C9 -/

/-- Case analysis of what `get_result_v1` dispatches: nothing, or exactly
the first tool-invocation request of its one model response. -/
theorem get_result_v1_dispatched_cases (openai : Oracle) (db : DB)
    (q sp : String) :
    (get_result_v1 openai db q sp).dispatched = []
      ∨ ∃ tc, first_tool_call (openai [Message.system sp, Message.user q])
            = .ok tc
          ∧ (get_result_v1 openai db q sp).dispatched = [tc] := by
  cases h : first_tool_call (openai [Message.system sp, Message.user q]) with
  | error e => left; simp [get_result_v1, h]
  | ok tc =>
    by_cases hn : tc.name = "read_data"
    · cases ha : tc.arguments with
      | none => left; simp [get_result_v1, h, hn, ha]
      | some s =>
        cases hq : (read_data s db).1 with
        | error e =>
            right; exact ⟨tc, rfl, by simp [get_result_v1, h, hn, ha, hq]⟩
        | ok df =>
            right; exact ⟨tc, rfl, by simp [get_result_v1, h, hn, ha, hq]⟩
    · left; simp [get_result_v1, h, hn]

/-- Case analysis of what `get_result_v2` dispatches: nothing; exactly the
first request of the first response (necessarily `get_schema`); or that
plus exactly the first request of the second response — never a request
occurring after the first of its response. -/
theorem get_result_v2_dispatched_cases (openai : Oracle) (db : DB)
    (q sp : String) :
    (get_result_v2 openai db q sp).dispatched = []
  ∨ (∃ tc, first_tool_call (openai [Message.system sp, Message.user q])
          = .ok tc
        ∧ (get_result_v2 openai db q sp).apiCalls
            = [[Message.system sp, Message.user q],
               [Message.system sp, Message.user q,
                Message.assistant (openai [Message.system sp, Message.user q]),
                Message.tool tc.id "get_schema" (schemaStr (get_schema db).1)]]
        ∧ (get_result_v2 openai db q sp).dispatched = [tc])
  ∨ (∃ tc tc2,
        first_tool_call (openai [Message.system sp, Message.user q]) = .ok tc
        ∧ first_tool_call
            (openai [Message.system sp, Message.user q,
                     Message.assistant
                       (openai [Message.system sp, Message.user q]),
                     Message.tool tc.id "get_schema"
                       (schemaStr (get_schema db).1)]) = .ok tc2
        ∧ (get_result_v2 openai db q sp).apiCalls
            = [[Message.system sp, Message.user q],
               [Message.system sp, Message.user q,
                Message.assistant (openai [Message.system sp, Message.user q]),
                Message.tool tc.id "get_schema" (schemaStr (get_schema db).1)]]
        ∧ (get_result_v2 openai db q sp).dispatched = [tc, tc2]) := by
  cases h : first_tool_call (openai [Message.system sp, Message.user q]) with
  | error e => left; simp [get_result_v2, h]
  | ok tc =>
    by_cases hg : tc.name = "get_schema"
    · cases h2 : first_tool_call
          (openai [Message.system sp, Message.user q,
                   Message.assistant (openai [Message.system sp, Message.user q]),
                   Message.tool tc.id "get_schema"
                     (schemaStr (get_schema db).1)]) with
      | error e =>
        right; left
        refine ⟨tc, rfl, ?_, ?_⟩ <;>
          · unfold get_result_v2
            simp only [get_schema] at h2 ⊢
            simp [h, hg, h2]
      | ok tc2 =>
        by_cases hn2 : tc2.name = "read_data"
        · cases ha : tc2.arguments with
          | none =>
            right; left
            refine ⟨tc, rfl, ?_, ?_⟩ <;>
              · unfold get_result_v2
                simp only [get_schema] at h2 ⊢
                simp [h, hg, h2, hn2, ha]
          | some s =>
            cases hq : (read_data s db).1 with
            | error e =>
              right; right
              refine ⟨tc, tc2, rfl, h2, ?_, ?_⟩ <;>
                · unfold get_result_v2
                  simp only [get_schema] at h2 ⊢
                  simp [h, hg, h2, hn2, ha, hq]
            | ok df =>
              right; right
              refine ⟨tc, tc2, rfl, h2, ?_, ?_⟩ <;>
                · unfold get_result_v2
                  simp only [get_schema] at h2 ⊢
                  simp [h, hg, h2, hn2, ha, hq]
        · right; left
          refine ⟨tc, rfl, ?_, ?_⟩ <;>
            · unfold get_result_v2
              simp only [get_schema] at h2 ⊢
              simp [h, hg, h2, hn2]
    · left; simp [get_result_v2, h, hg]

/-- C9: in every orchestration step of either orchestrator, only the first
tool-invocation request of a model response is ever dispatched: every
dispatched tool call is `tool_calls[0]` of the response to one of the run's
API calls (so requests after the first are never dispatched), and no run
dispatches more requests than it made API calls (at most one consumed per
orchestration step). -/
theorem c9_only_first_request_dispatched (openai : Oracle) (db : DB)
    (q sp : String) :
    (∀ d ∈ (get_result_v1 openai db q sp).dispatched,
        ∃ ms ∈ (get_result_v1 openai db q sp).apiCalls,
          first_tool_call (openai ms) = .ok d)
  ∧ (∀ d ∈ (get_result_v2 openai db q sp).dispatched,
        ∃ ms ∈ (get_result_v2 openai db q sp).apiCalls,
          first_tool_call (openai ms) = .ok d)
  ∧ (get_result_v1 openai db q sp).dispatched.length
      ≤ (get_result_v1 openai db q sp).apiCalls.length
  ∧ (get_result_v2 openai db q sp).dispatched.length
      ≤ (get_result_v2 openai db q sp).apiCalls.length := by
  refine ⟨?_, ?_, ?_, ?_⟩
  · intro d hd
    rcases get_result_v1_dispatched_cases openai db q sp with h0 | ⟨tc, h, h1⟩
    · rw [h0] at hd; simp at hd
    · rw [h1] at hd
      simp only [List.mem_singleton] at hd
      subst hd
      exact ⟨[Message.system sp, Message.user q],
        by rw [get_result_v1_apiCalls_eq]; simp, h⟩
  · intro d hd
    rcases get_result_v2_dispatched_cases openai db q sp with
      h0 | ⟨tc, h, hapi, h1⟩ | ⟨tc, tc2, h, h2, hapi, h1⟩
    · rw [h0] at hd; simp at hd
    · rw [h1] at hd
      simp only [List.mem_singleton] at hd
      subst hd
      exact ⟨[Message.system sp, Message.user q], by rw [hapi]; simp, h⟩
    · rw [h1] at hd
      simp only [List.mem_cons, List.mem_singleton, List.not_mem_nil,
        or_false] at hd
      rcases hd with hd | hd
      · subst hd
        exact ⟨[Message.system sp, Message.user q], by rw [hapi]; simp, h⟩
      · subst hd
        exact ⟨[Message.system sp, Message.user q,
                Message.assistant (openai [Message.system sp, Message.user q]),
                Message.tool tc.id "get_schema"
                  (schemaStr (get_schema db).1)],
          by rw [hapi]; simp, h2⟩
  · rcases get_result_v1_dispatched_cases openai db q sp with h0 | ⟨tc, h, h1⟩
    · simp [h0]
    · simp [h1, get_result_v1_apiCalls_eq]
  · rcases get_result_v2_dispatched_cases openai db q sp with
      h0 | ⟨tc, h, hapi, h1⟩ | ⟨tc, tc2, h, h2, hapi, h1⟩
    · simp [h0]
    · simp [h1, hapi]
    · simp [h1, hapi]

/-- Witness for C9 at the two-step model: the `read_data` request executed
by `get_result_v2` is the first request of the second response. -/
theorem c9_only_first_request_dispatched_witness :
    ∃ ms ∈ (get_result_v2 oracleTwoStep dbA "q" "sp").apiCalls,
      first_tool_call (oracleTwoStep ms)
        = .ok ⟨"call_2", "read_data", some "SELECT 1"⟩ :=
  (c9_only_first_request_dispatched oracleTwoStep dbA "q" "sp").2.1
    ⟨"call_2", "read_data", some "SELECT 1"⟩ (by decide)

end FunctionCalling
